import Mathlib

/-!
Verification of the Guardian risk-analysis engine.

Shallow embedding of the core of the repository:
* `IPAnalyzer` (services/ip-analyzer.js): signal collectors, risk scoring,
  block decision, fail-closed error path;
* `TorService` (services/tor-service.js): threat-list refresh fallback chain;
* `GuardianMiddleware` (src/middleware/guardian.js) together with
  `CacheService` and `LogService`: cache-aside lookup and request logging.

External effects (HTTP fetches, the geoip database, environment flags) are
passed in as explicit values: an `Except Unit α` stands for a remote call
that either returned `α` or threw (the surrounding `try/catch` in the JS
code catches the throw), and configuration flags mirror the environment
variables read by the code.
-/

namespace Guardian

/-- Block reasons assigned by `makeBlockDecision` plus the fail-closed
`ANALYSIS_ERROR` reason produced by `analyzeIP`'s top-level catch. -/
inductive Reason where
  | TOR_EXIT_NODE
  | VPN_PROXY_DETECTED
  | BAD_IP_REPUTATION
  | HIGH_RISK_SCORE
  | ANALYSIS_ERROR
  deriving DecidableEq, Repr

/-- Result of `geoip.lookup(ip)` when it returns a record. -/
structure GeoInfo where
  country : String
  region : String
  city : String
  timezone : String
  deriving DecidableEq, Repr

/-- The `{proxy, hosting}` fields of the ip-api.com response body. -/
structure VpnData where
  proxy : Bool
  hosting : Bool
  deriving DecidableEq, Repr

/-- The fields of the AbuseIPDB response body used by `checkIPReputation`. -/
structure RepData where
  abuseConfidencePercentage : Nat
  isWhitelisted : Bool
  deriving DecidableEq, Repr

/-- The `analysis.checks` record: which collectors completed. -/
structure Checks where
  geoip : Bool := false
  tor : Bool := false
  vpn : Bool := false
  userAgent : Bool := false
  reputation : Bool := false
  deriving DecidableEq, Repr

/-- The `analysis.details` map.  In JS absent keys are falsy; an absent
optional value is `none` and an absent boolean flag is `false`.  The
string-valued `suspiciousUA` detail is modelled by its presence. -/
structure Details where
  country : Option String := none
  region : Option String := none
  city : Option String := none
  timezone : Option String := none
  riskyCountry : Bool := false
  isTor : Option Bool := none
  torBlocked : Bool := false
  isProxy : Option Bool := none
  isHosting : Option Bool := none
  vpnBlocked : Bool := false
  suspiciousUA : Bool := false
  possibleBot : Bool := false
  abuseConfidence : Option Nat := none
  isWhitelisted : Option Bool := none
  badReputation : Bool := false
  riskLevel : Option String := none
  errorMsg : Option String := none
  deriving DecidableEq, Repr

/-- The analysis object built by `IPAnalyzer.analyzeIP`. -/
structure Analysis where
  ip : String
  isBlocked : Bool
  reason : Option Reason
  riskScore : Nat
  details : Details
  checks : Checks
  deriving DecidableEq, Repr

/-- Configuration flags (environment variables read by the code):
`BLOCK_VPN_TOR`, `STRICT_MODE`, presence of `IPAPI_KEY` and of
`ABUSEIPDB_KEY`. -/
structure Config where
  blockVpnTor : Bool
  strictMode : Bool
  ipapiKey : Bool
  abuseKey : Bool
  deriving DecidableEq, Repr

/-- Outcomes of the external lookups one `analyzeIP` call performs.
`Except.error ()` models the lookup throwing (network error, timeout);
the inner `Option` models a response whose body is absent/falsy. -/
structure World where
  geo : Except Unit (Option GeoInfo)
  torResult : Except Unit Bool
  vpnResp : Except Unit (Option VpnData)
  repResp : Except Unit (Option RepData)

/-- The fresh analysis record created at the top of `analyzeIP`. -/
def initAnalysis (ip : String) : Analysis :=
  { ip := ip, isBlocked := false, reason := none, riskScore := 0,
    details := {}, checks := {} }

/-- The high-risk country list of `analyzeGeoIP`. -/
def riskyCountries : List String := ["CN", "RU", "KP", "IR"]

/-- `IPAnalyzer.analyzeGeoIP`: annotate geo data; +30 risk for a country in
`riskyCountries`.  A throw is caught and leaves the analysis unchanged; a
null lookup result skips the body of the `if (geo)` branch. -/
def analyzeGeoIP (geo : Except Unit (Option GeoInfo)) (a : Analysis) : Analysis :=
  match geo with
  | .error _ => a
  | .ok none => a
  | .ok (some g) =>
    let a1 := { a with
      details := { a.details with country := some g.country, region := some g.region,
                                  city := some g.city, timezone := some g.timezone },
      checks := { a.checks with geoip := true } }
    if riskyCountries.contains g.country then
      { a1 with riskScore := a1.riskScore + 30,
                details := { a1.details with riskyCountry := true } }
    else a1

/-- `IPAnalyzer.checkTorExitNode`: record the Tor membership answer; +80
risk when it is positive and the `BLOCK_VPN_TOR` policy is on. -/
def checkTorExitNode (blockVpnTor : Bool) (torResult : Except Unit Bool)
    (a : Analysis) : Analysis :=
  match torResult with
  | .error _ => a
  | .ok isTor =>
    let a1 := { a with details := { a.details with isTor := some isTor },
                       checks := { a.checks with tor := true } }
    if isTor && blockVpnTor then
      { a1 with riskScore := a1.riskScore + 80,
                details := { a1.details with torBlocked := true } }
    else a1

/-- `IPAnalyzer.checkVPNProxy`: only runs when `IPAPI_KEY` is configured;
+60 risk when the response flags proxy or hosting and the policy is on. -/
def checkVPNProxy (blockVpnTor : Bool) (ipapiKey : Bool)
    (vpnResp : Except Unit (Option VpnData)) (a : Analysis) : Analysis :=
  if ipapiKey then
    match vpnResp with
    | .error _ => a
    | .ok none => a
    | .ok (some v) =>
      let a1 := { a with
        details := { a.details with isProxy := some v.proxy, isHosting := some v.hosting },
        checks := { a.checks with vpn := true } }
      if (v.proxy || v.hosting) && blockVpnTor then
        { a1 with riskScore := a1.riskScore + 60,
                  details := { a1.details with vpnBlocked := true } }
      else a1
  else a

/-- Lower-case a character list, as the `/i` regex flag does. -/
def lowerChars (cs : List Char) : List Char := cs.map Char.toLower

/-- Char-list version of "the first list starts the second". -/
def listStartsWith : List Char → List Char → Bool
  | [], _ => true
  | _ :: _, [] => false
  | a :: as, b :: bs => a == b && listStartsWith as bs

/-- Char-list substring search: does `needle` occur inside the haystack? -/
def listHasSub (needle : List Char) : List Char → Bool
  | [] => listStartsWith needle []
  | c :: rest => listStartsWith needle (c :: rest) || listHasSub needle rest

/-- Case-insensitive substring test, the meaning of `/pat/i.test(hay)` for
the plain-text patterns used by `analyzeUserAgent`. -/
def strHasSubCI (hay pat : String) : Bool :=
  listHasSub (lowerChars pat.toList) (lowerChars hay.toList)

/-- The bot signature patterns of `analyzeUserAgent`. -/
def botPatterns : List String :=
  ["bot", "crawler", "spider", "scraper", "curl", "wget", "python", "java"]

/-- `botPatterns.some(pattern => pattern.test(userAgent))`. -/
def matchesBotPattern (ua : String) : Bool :=
  botPatterns.any (fun p => strHasSubCI ua p)

/-- `IPAnalyzer.analyzeUserAgent`: +20 for a missing/short user agent
(`!userAgent || userAgent.length < 10`, which for a string argument is
exactly `length < 10` since the empty string has length 0), +15 for a bot
signature match.  The parser annotation step never throws, so the check is
always marked performed. -/
def analyzeUserAgent (ua : String) (a : Analysis) : Analysis :=
  let a1 := { a with checks := { a.checks with userAgent := true } }
  let a2 :=
    if ua.length < 10 then
      { a1 with riskScore := a1.riskScore + 20,
                details := { a1.details with suspiciousUA := true } }
    else a1
  if matchesBotPattern ua then
    { a2 with riskScore := a2.riskScore + 15,
              details := { a2.details with possibleBot := true } }
  else a2

/-- `IPAnalyzer.checkIPReputation`: record the abuse confidence; when it
exceeds 25, add `min(confidence, 50)` risk. -/
def checkIPReputation (repResp : Except Unit (Option RepData))
    (a : Analysis) : Analysis :=
  match repResp with
  | .error _ => a
  | .ok none => a
  | .ok (some r) =>
    let a1 := { a with
      details := { a.details with abuseConfidence := some r.abuseConfidencePercentage,
                                  isWhitelisted := some r.isWhitelisted },
      checks := { a.checks with reputation := true } }
    if 25 < r.abuseConfidencePercentage then
      { a1 with riskScore := a1.riskScore + min r.abuseConfidencePercentage 50,
                details := { a1.details with badReputation := true } }
    else a1

/-- `IPAnalyzer.calculateRiskScore`: clamp the score to 100 and classify
the level on the clamped value. -/
def calculateRiskScore (a : Analysis) : Analysis :=
  let s := min a.riskScore 100
  let lvl := if 70 ≤ s then "HIGH" else if 40 ≤ s then "MEDIUM" else "LOW"
  { a with riskScore := s, details := { a.details with riskLevel := some lvl } }

/-- The mode-dependent block threshold of `makeBlockDecision`. -/
def threshold (strictMode : Bool) : Nat := if strictMode then 40 else 70

/-- The reason cascade of `makeBlockDecision`: `details.isTor` truthy,
then `details.vpnBlocked`, then `details.badReputation`, else the generic
high-score reason. -/
def blockReason (d : Details) : Reason :=
  if d.isTor.getD false then .TOR_EXIT_NODE
  else if d.vpnBlocked then .VPN_PROXY_DETECTED
  else if d.badReputation then .BAD_IP_REPUTATION
  else .HIGH_RISK_SCORE

/-- `IPAnalyzer.makeBlockDecision`: block iff the score reaches the
threshold; on block, assign the cascaded reason. -/
def makeBlockDecision (strictMode : Bool) (a : Analysis) : Analysis :=
  if threshold strictMode ≤ a.riskScore then
    { a with isBlocked := true, reason := some (blockReason a.details) }
  else a

/-- The collector/scoring sequence of `analyzeIP` before the block
decision: GeoIP, Tor, VPN, user agent, reputation (reputation only when
`ABUSEIPDB_KEY` is configured), then score clamping. -/
def scoredAnalysis (cfg : Config) (w : World) (ip ua : String) : Analysis :=
  let a1 := analyzeGeoIP w.geo (initAnalysis ip)
  let a2 := checkTorExitNode cfg.blockVpnTor w.torResult a1
  let a3 := checkVPNProxy cfg.blockVpnTor cfg.ipapiKey w.vpnResp a2
  let a4 := analyzeUserAgent ua a3
  let a5 := if cfg.abuseKey then checkIPReputation w.repResp a4 else a4
  calculateRiskScore a5

/-- The body of `analyzeIP`'s `try` block. -/
def runPipeline (cfg : Config) (w : World) (ip ua : String) : Analysis :=
  makeBlockDecision cfg.strictMode (scoredAnalysis cfg w ip ua)

/-- The fail-closed result built in `analyzeIP`'s `catch` block (the JS
object carries no `checks` map, i.e. all checks falsy). -/
def errorAnalysis (ip : String) : Analysis :=
  { ip := ip, isBlocked := true, reason := some .ANALYSIS_ERROR, riskScore := 100,
    details := { errorMsg := some "Analysis failed" }, checks := {} }

/-- `IPAnalyzer.analyzeIP`: the pipeline under a top-level `try/catch`.
`pipelineThrows` models an unexpected exception escaping to that catch
(the collectors catch their own lookup failures, so those never reach
it). -/
def analyzeIP (cfg : Config) (w : World) (pipelineThrows : Bool)
    (ip ua : String) : Analysis :=
  if pipelineThrows then errorAnalysis ip else runPipeline cfg w ip ua

/-! ## TorService (services/tor-service.js) -/

/-- The mutable state of the `TorService` singleton: the exit-node set and
the `lastUpdate` timestamp (`null` before any successful load). -/
structure TorState where
  torExitNodes : List String
  lastUpdate : Option Nat
  deriving DecidableEq, Repr

/-- JS `Set.add`: insert if not already present (membership semantics). -/
def setAdd (s : List String) (y : String) : List String :=
  if y ∈ s then s else s ++ [y]

/-- `xs.forEach(ip => set.add(ip))`. -/
def setAddAll (s : List String) (xs : List String) : List String :=
  xs.foldl setAdd s

/-- JS `split('\n')` on the character level: `""` yields `[[]]`, and a
trailing newline yields a trailing empty piece. -/
def splitOnNl : List Char → List (List Char)
  | [] => [[]]
  | c :: rest =>
    if c = '\n' then [] :: splitOnNl rest
    else
      match splitOnNl rest with
      | [] => [[c]]
      | h :: t => (c :: h) :: t

/-- ASCII whitespace, the characters `trim` strips from these lists. -/
def isSpaceChar (c : Char) : Bool := c == ' ' || c == '\t' || c == '\n' || c == '\r'

/-- JS `String.trim` on a character list. -/
def trimChars (cs : List Char) : List Char :=
  ((cs.dropWhile isSpaceChar).reverse.dropWhile isSpaceChar).reverse

/-- The line parsing shared by both remote loaders:
`data.split('\n').map(trim).filter(line => line && !line.startsWith('#'))`. -/
def parseExitList (data : String) : List String :=
  (((splitOnNl data.toList).map trimChars).filter
    (fun line => !line.isEmpty && !listStartsWith ['#'] line)).map
      (fun l => String.mk l)

/-- The constant list of `loadHardcodedExitNodes`. -/
def knownExitNodes : List String :=
  ["199.87.154.255", "104.244.76.13", "185.220.101.1", "199.195.249.84",
   "185.220.100.240"]

/-- `TorService.loadHardcodedExitNodes`: adds the constant entries to the
current set (no clearing) and stamps `lastUpdate`. -/
def loadHardcodedExitNodes (now : Nat) (st : TorState) : TorState :=
  { torExitNodes := setAddAll st.torExitNodes knownExitNodes,
    lastUpdate := some now }

/-- `TorService.loadFallbackExitNodes`: fetch the secondary mirror; on a
truthy body, add its parsed entries to the current set (no clearing) and
stamp `lastUpdate`; on a throw, fall through to the hardcoded loader. -/
def loadFallbackExitNodes (now : Nat) (secondary : Except Unit String)
    (st : TorState) : TorState :=
  match secondary with
  | .ok data =>
    if data != "" then
      { torExitNodes := setAddAll st.torExitNodes (parseExitList data),
        lastUpdate := some now }
    else st
  | .error _ => loadHardcodedExitNodes now st

/-- `TorService.updateTorExitNodes`: fetch the primary source; on a truthy
body, clear the set and load exactly the parsed entries; on a throw, fall
through to `loadFallbackExitNodes`. -/
def updateTorExitNodes (now : Nat) (primary secondary : Except Unit String)
    (st : TorState) : TorState :=
  match primary with
  | .ok data =>
    if data != "" then
      { torExitNodes := setAddAll [] (parseExitList data),
        lastUpdate := some now }
    else st
  | .error _ => loadFallbackExitNodes now secondary st

/-! ## CacheService, LogService buffer, GuardianMiddleware -/

/-- One stored cache entry of the NodeCache instance: key, value and
expiry data (`stdTTL`/per-set TTL, in seconds). -/
structure CacheEntry where
  key : String
  value : Analysis
  insertedAt : Nat
  ttl : Nat
  deriving DecidableEq, Repr

/-- `CacheService.get`: an entry answers only while unexpired; an expired
or absent key is a miss (`null`). -/
def cacheGet (cache : List CacheEntry) (now : Nat) (key : String) :
    Option Analysis :=
  match cache.find? (fun e => e.key == key && decide (now < e.insertedAt + e.ttl)) with
  | some e => some e.value
  | none => none

/-- `CacheService.set`: store the value under the key with the given TTL,
replacing any previous entry for that key. -/
def cacheSet (cache : List CacheEntry) (now : Nat) (key : String)
    (v : Analysis) (ttl : Nat) : List CacheEntry :=
  (cache.filter (fun e => e.key != key)) ++
    [{ key := key, value := v, insertedAt := now, ttl := ttl }]

/-- The log entry built by `LogService.logRequest`. -/
structure LogEntry where
  timestamp : Nat
  requestId : String
  ip : String
  userAgent : String
  method : String
  url : String
  analysis : Analysis
  blocked : Bool
  riskScore : Nat
  reason : Option Reason
  deriving DecidableEq, Repr

/-- The `LogService` buffer state: the in-memory `requestLogs` array and
the entries already flushed to the per-day file. -/
structure LogState where
  requestLogs : List LogEntry
  diskLogs : List LogEntry
  deriving DecidableEq, Repr

/-- `this.maxLogsInMemory`. -/
def maxLogsInMemory : Nat := 1000

/-- `LogService.logRequest`: append the entry to the in-memory buffer;
when the buffer reaches the cap, flush it to the day file and clear it. -/
def logRequest (st : LogState) (e : LogEntry) : LogState :=
  let st1 : LogState := { st with requestLogs := st.requestLogs ++ [e] }
  if maxLogsInMemory ≤ st1.requestLogs.length then
    { requestLogs := [], diskLogs := st1.diskLogs ++ st1.requestLogs }
  else st1

/-- The shared mutable state the middleware touches: the analysis cache
and the log buffer. -/
structure GuardianState where
  cache : List CacheEntry
  logState : LogState
  deriving DecidableEq, Repr

/-- One inbound request as seen by `GuardianMiddleware.analyze` (client
IP, user-agent header with `|| ''` applied, method, URL, generated id). -/
structure RequestInfo where
  ip : String
  userAgent : String
  method : String
  url : String
  requestId : String
  deriving DecidableEq, Repr

/-- The cache key built by `GuardianMiddleware.analyze`:
the template literal over the client IP alone. -/
def cacheKeyFor (clientIP : String) : String := "analysis:" ++ clientIP

/-- `GuardianMiddleware.analyze` up to `handleResult`: look the key up in
the cache; a hit returns the cached analysis with no further effect; a
miss runs `analyzeIP`, caches the result for 300 s and logs the request. -/
def guardianAnalyze (cfg : Config) (w : World) (pipelineThrows : Bool)
    (now : Nat) (req : RequestInfo) (st : GuardianState) :
    GuardianState × Analysis :=
  let key := cacheKeyFor req.ip
  match cacheGet st.cache now key with
  | some cached => (st, cached)
  | none =>
    let analysis := analyzeIP cfg w pipelineThrows req.ip req.userAgent
    let cache2 := cacheSet st.cache now key analysis 300
    let entry : LogEntry :=
      { timestamp := now, requestId := req.requestId, ip := req.ip,
        userAgent := req.userAgent, method := req.method, url := req.url,
        analysis := analysis, blocked := analysis.isBlocked,
        riskScore := analysis.riskScore, reason := analysis.reason }
    ({ cache := cache2, logState := logRequest st.logState entry }, analysis)

/-! ## Structural lemmas about the collectors -/

theorem analyzeGeoIP_isBlocked (g : Except Unit (Option GeoInfo)) (a : Analysis) :
    (analyzeGeoIP g a).isBlocked = a.isBlocked := by
  unfold analyzeGeoIP
  cases g with
  | error e => rfl
  | ok o =>
    cases o with
    | none => rfl
    | some gi => dsimp only; split <;> rfl

theorem analyzeGeoIP_reason (g : Except Unit (Option GeoInfo)) (a : Analysis) :
    (analyzeGeoIP g a).reason = a.reason := by
  unfold analyzeGeoIP
  cases g with
  | error e => rfl
  | ok o =>
    cases o with
    | none => rfl
    | some gi => dsimp only; split <;> rfl

theorem analyzeGeoIP_riskScore_le (g : Except Unit (Option GeoInfo)) (a : Analysis) :
    a.riskScore ≤ (analyzeGeoIP g a).riskScore := by
  unfold analyzeGeoIP
  cases g with
  | error e => exact Nat.le_refl _
  | ok o =>
    cases o with
    | none => exact Nat.le_refl _
    | some gi =>
      dsimp only
      split
      · exact Nat.le_add_right _ _
      · exact Nat.le_refl _

theorem checkTorExitNode_isBlocked (b : Bool) (t : Except Unit Bool) (a : Analysis) :
    (checkTorExitNode b t a).isBlocked = a.isBlocked := by
  unfold checkTorExitNode
  cases t with
  | error e => rfl
  | ok v => dsimp only; split <;> rfl

theorem checkTorExitNode_reason (b : Bool) (t : Except Unit Bool) (a : Analysis) :
    (checkTorExitNode b t a).reason = a.reason := by
  unfold checkTorExitNode
  cases t with
  | error e => rfl
  | ok v => dsimp only; split <;> rfl

theorem checkTorExitNode_riskScore_le (b : Bool) (t : Except Unit Bool) (a : Analysis) :
    a.riskScore ≤ (checkTorExitNode b t a).riskScore := by
  unfold checkTorExitNode
  cases t with
  | error e => exact Nat.le_refl _
  | ok v =>
    dsimp only
    split
    · exact Nat.le_add_right _ _
    · exact Nat.le_refl _

theorem checkVPNProxy_isBlocked (b k : Bool) (v : Except Unit (Option VpnData))
    (a : Analysis) : (checkVPNProxy b k v a).isBlocked = a.isBlocked := by
  unfold checkVPNProxy
  split
  · cases v with
    | error e => rfl
    | ok o =>
      cases o with
      | none => rfl
      | some vd => dsimp only; split <;> rfl
  · rfl

theorem checkVPNProxy_reason (b k : Bool) (v : Except Unit (Option VpnData))
    (a : Analysis) : (checkVPNProxy b k v a).reason = a.reason := by
  unfold checkVPNProxy
  split
  · cases v with
    | error e => rfl
    | ok o =>
      cases o with
      | none => rfl
      | some vd => dsimp only; split <;> rfl
  · rfl

theorem checkVPNProxy_riskScore_le (b k : Bool) (v : Except Unit (Option VpnData))
    (a : Analysis) : a.riskScore ≤ (checkVPNProxy b k v a).riskScore := by
  unfold checkVPNProxy
  split
  · cases v with
    | error e => exact Nat.le_refl _
    | ok o =>
      cases o with
      | none => exact Nat.le_refl _
      | some vd =>
        dsimp only
        split
        · exact Nat.le_add_right _ _
        · exact Nat.le_refl _
  · exact Nat.le_refl _

theorem analyzeUserAgent_isBlocked (ua : String) (a : Analysis) :
    (analyzeUserAgent ua a).isBlocked = a.isBlocked := by
  unfold analyzeUserAgent
  dsimp only
  split <;> split <;> rfl

theorem analyzeUserAgent_reason (ua : String) (a : Analysis) :
    (analyzeUserAgent ua a).reason = a.reason := by
  unfold analyzeUserAgent
  dsimp only
  split <;> split <;> rfl

theorem analyzeUserAgent_riskScore_le (ua : String) (a : Analysis) :
    a.riskScore ≤ (analyzeUserAgent ua a).riskScore := by
  unfold analyzeUserAgent
  dsimp only
  split <;> split
  · exact Nat.le_add_right _ _ |>.trans (Nat.le_add_right _ _)
  · exact Nat.le_add_right _ _
  · exact Nat.le_add_right _ _
  · exact Nat.le_refl _

theorem checkIPReputation_isBlocked (r : Except Unit (Option RepData)) (a : Analysis) :
    (checkIPReputation r a).isBlocked = a.isBlocked := by
  unfold checkIPReputation
  cases r with
  | error e => rfl
  | ok o =>
    cases o with
    | none => rfl
    | some rd => dsimp only; split <;> rfl

theorem checkIPReputation_reason (r : Except Unit (Option RepData)) (a : Analysis) :
    (checkIPReputation r a).reason = a.reason := by
  unfold checkIPReputation
  cases r with
  | error e => rfl
  | ok o =>
    cases o with
    | none => rfl
    | some rd => dsimp only; split <;> rfl

theorem checkIPReputation_riskScore_le (r : Except Unit (Option RepData)) (a : Analysis) :
    a.riskScore ≤ (checkIPReputation r a).riskScore := by
  unfold checkIPReputation
  cases r with
  | error e => exact Nat.le_refl _
  | ok o =>
    cases o with
    | none => exact Nat.le_refl _
    | some rd =>
      dsimp only
      split
      · exact Nat.le_add_right _ _
      · exact Nat.le_refl _

theorem calculateRiskScore_isBlocked (a : Analysis) :
    (calculateRiskScore a).isBlocked = a.isBlocked := rfl

theorem calculateRiskScore_reason (a : Analysis) :
    (calculateRiskScore a).reason = a.reason := rfl

theorem calculateRiskScore_riskScore (a : Analysis) :
    (calculateRiskScore a).riskScore = min a.riskScore 100 := rfl

theorem makeBlockDecision_riskScore (m : Bool) (a : Analysis) :
    (makeBlockDecision m a).riskScore = a.riskScore := by
  unfold makeBlockDecision
  split <;> rfl

theorem makeBlockDecision_details (m : Bool) (a : Analysis) :
    (makeBlockDecision m a).details = a.details := by
  unfold makeBlockDecision
  split <;> rfl

/-- Before the block decision, no step of the pipeline has touched the
`isBlocked` field: it is still the initial `false`. -/
theorem scoredAnalysis_isBlocked (cfg : Config) (w : World) (ip ua : String) :
    (scoredAnalysis cfg w ip ua).isBlocked = false := by
  unfold scoredAnalysis
  dsimp only
  rw [calculateRiskScore_isBlocked]
  split
  · rw [checkIPReputation_isBlocked, analyzeUserAgent_isBlocked,
      checkVPNProxy_isBlocked, checkTorExitNode_isBlocked, analyzeGeoIP_isBlocked]
    rfl
  · rw [analyzeUserAgent_isBlocked, checkVPNProxy_isBlocked,
      checkTorExitNode_isBlocked, analyzeGeoIP_isBlocked]
    rfl

/-- Before the block decision, the `reason` field is still `none`. -/
theorem scoredAnalysis_reason (cfg : Config) (w : World) (ip ua : String) :
    (scoredAnalysis cfg w ip ua).reason = none := by
  unfold scoredAnalysis
  dsimp only
  rw [calculateRiskScore_reason]
  split
  · rw [checkIPReputation_reason, analyzeUserAgent_reason,
      checkVPNProxy_reason, checkTorExitNode_reason, analyzeGeoIP_reason]
    rfl
  · rw [analyzeUserAgent_reason, checkVPNProxy_reason,
      checkTorExitNode_reason, analyzeGeoIP_reason]
    rfl

/-- The clamped score never exceeds 100. -/
theorem scoredAnalysis_riskScore_le (cfg : Config) (w : World) (ip ua : String) :
    (scoredAnalysis cfg w ip ua).riskScore ≤ 100 := by
  unfold scoredAnalysis
  dsimp only
  rw [calculateRiskScore_riskScore]
  exact Nat.min_le_right _ _

/-- `makeBlockDecision` either blocks (threshold reached) and fills in the
cascaded reason, or returns its input unchanged. -/
theorem makeBlockDecision_cases (m : Bool) (a : Analysis) :
    (threshold m ≤ a.riskScore ∧
      makeBlockDecision m a
        = { a with isBlocked := true, reason := some (blockReason a.details) })
    ∨ (¬ threshold m ≤ a.riskScore ∧ makeBlockDecision m a = a) := by
  unfold makeBlockDecision
  split
  · exact Or.inl ⟨‹_›, rfl⟩
  · exact Or.inr ⟨‹_›, rfl⟩

/-- The reason cascade never produces the fail-closed reason. -/
theorem blockReason_ne_error (d : Details) :
    blockReason d ≠ Reason.ANALYSIS_ERROR := by
  unfold blockReason
  split
  · decide
  · split
    · decide
    · split <;> decide

/-- C1: for every analyzed request (normal path and fail-closed path
alike), `isBlocked` holds iff `riskScore` reaches the mode-dependent
threshold, with threshold 40 in strict mode and 70 otherwise. -/
theorem isBlocked_iff_threshold (cfg : Config) (w : World) (b : Bool)
    (ip ua : String) :
    ((analyzeIP cfg w b ip ua).isBlocked = true ↔
      threshold cfg.strictMode ≤ (analyzeIP cfg w b ip ua).riskScore)
    ∧ threshold true = 40 ∧ threshold false = 70 := by
  refine ⟨?_, rfl, rfl⟩
  unfold analyzeIP
  split
  · constructor
    · intro _
      show threshold cfg.strictMode ≤ 100
      cases hm : cfg.strictMode <;> simp [threshold]
    · intro _
      rfl
  · unfold runPipeline
    rw [makeBlockDecision_riskScore]
    unfold makeBlockDecision
    split
    · rename_i h
      simp [h]
    · rename_i h
      rw [scoredAnalysis_isBlocked]
      simp [h]

/-- C2: on every request blocked by the decision procedure, the reason is
the fixed priority cascade (Tor flag, then VPN flag, then reputation flag,
then the generic high-score reason); in particular, when both the Tor and
the VPN flag are set the reason is `TOR_EXIT_NODE`, never
`VPN_PROXY_DETECTED`. -/
theorem reason_priority_order (cfg : Config) (w : World) (ip ua : String)
    (hb : (runPipeline cfg w ip ua).isBlocked = true) :
    (runPipeline cfg w ip ua).reason
        = some (blockReason (runPipeline cfg w ip ua).details)
    ∧ ((runPipeline cfg w ip ua).details.isTor.getD false = true →
        (runPipeline cfg w ip ua).details.vpnBlocked = true →
        (runPipeline cfg w ip ua).reason = some Reason.TOR_EXIT_NODE
          ∧ (runPipeline cfg w ip ua).reason ≠ some Reason.VPN_PROXY_DETECTED) := by
  rcases makeBlockDecision_cases cfg.strictMode (scoredAnalysis cfg w ip ua) with
    ⟨hge, heq⟩ | ⟨hlt, heq⟩
  · unfold runPipeline at hb ⊢
    rw [heq]
    refine ⟨rfl, ?_⟩
    intro ht hv
    dsimp only at ht ⊢
    constructor
    · unfold blockReason
      rw [ht]
      rfl
    · unfold blockReason
      rw [ht]
      simp
  · unfold runPipeline at hb
    rw [heq, scoredAnalysis_isBlocked] at hb
    exact absurd hb (by decide)

/-- C3: when the aggregation pipeline itself throws, `analyzeIP` fails
closed (`isBlocked = true`, `riskScore = 100`, reason `ANALYSIS_ERROR`);
and this is the only fail-closed path: a run whose pipeline does not throw
never carries the `ANALYSIS_ERROR` reason, whatever the individual
collectors did. -/
theorem pipeline_failure_fails_closed (cfg : Config) (w : World)
    (ip ua : String) :
    analyzeIP cfg w true ip ua = errorAnalysis ip
    ∧ (analyzeIP cfg w true ip ua).isBlocked = true
    ∧ (analyzeIP cfg w true ip ua).riskScore = 100
    ∧ (analyzeIP cfg w true ip ua).reason = some Reason.ANALYSIS_ERROR
    ∧ (analyzeIP cfg w false ip ua).reason ≠ some Reason.ANALYSIS_ERROR := by
  refine ⟨rfl, rfl, rfl, rfl, ?_⟩
  show (runPipeline cfg w ip ua).reason ≠ some Reason.ANALYSIS_ERROR
  rcases makeBlockDecision_cases cfg.strictMode (scoredAnalysis cfg w ip ua) with
    ⟨hge, heq⟩ | ⟨hlt, heq⟩
  · unfold runPipeline
    rw [heq]
    intro h
    exact blockReason_ne_error _ (Option.some_injective _ h)
  · unfold runPipeline
    rw [heq, scoredAnalysis_reason]
    exact Option.noConfusion

/-- C5: every result's `riskScore` lies in `[0, 100]` (scores are natural
numbers, so the lower bound is intrinsic and stated explicitly), on the
fail-closed path as well; and every collector contribution is
non-negative, i.e. no collector ever lowers the running score. -/
theorem riskScore_bounded (cfg : Config) (w : World) (b : Bool)
    (ip ua : String) :
    (analyzeIP cfg w b ip ua).riskScore ≤ 100
    ∧ 0 ≤ (analyzeIP cfg w b ip ua).riskScore
    ∧ (∀ a : Analysis, a.riskScore ≤ (analyzeGeoIP w.geo a).riskScore)
    ∧ (∀ a : Analysis,
        a.riskScore ≤ (checkTorExitNode cfg.blockVpnTor w.torResult a).riskScore)
    ∧ (∀ a : Analysis,
        a.riskScore ≤ (checkVPNProxy cfg.blockVpnTor cfg.ipapiKey w.vpnResp a).riskScore)
    ∧ (∀ a : Analysis, a.riskScore ≤ (analyzeUserAgent ua a).riskScore)
    ∧ (∀ a : Analysis, a.riskScore ≤ (checkIPReputation w.repResp a).riskScore) := by
  refine ⟨?_, Nat.zero_le _, analyzeGeoIP_riskScore_le w.geo,
    checkTorExitNode_riskScore_le cfg.blockVpnTor w.torResult,
    checkVPNProxy_riskScore_le cfg.blockVpnTor cfg.ipapiKey w.vpnResp,
    analyzeUserAgent_riskScore_le ua,
    checkIPReputation_riskScore_le w.repResp⟩
  unfold analyzeIP
  split
  · exact Nat.le_refl _
  · unfold runPipeline
    rw [makeBlockDecision_riskScore]
    exact scoredAnalysis_riskScore_le cfg w ip ua

/-- C8: a reputation response with abuse confidence `c` contributes
`min c 50` risk when `c > 25` and nothing otherwise; concretely, `c = 90`
with no other signal firing yields `riskScore = 50`, blocked in strict
mode (threshold 40) and allowed in normal mode (threshold 70). -/
theorem reputation_contribution (a : Analysis) (r : RepData) :
    ((checkIPReputation (.ok (some r)) a).riskScore =
      a.riskScore + (if 25 < r.abuseConfidencePercentage then
        min r.abuseConfidencePercentage 50 else 0))
    ∧ (runPipeline ⟨false, true, false, true⟩
        ⟨.ok none, .ok false, .ok none, .ok (some ⟨90, false⟩)⟩ "1.2.3.4"
        "Mozilla/5.0 (Windows NT 10.0; Win64; x64) Safari x").riskScore = 50
    ∧ (runPipeline ⟨false, true, false, true⟩
        ⟨.ok none, .ok false, .ok none, .ok (some ⟨90, false⟩)⟩ "1.2.3.4"
        "Mozilla/5.0 (Windows NT 10.0; Win64; x64) Safari x").isBlocked = true
    ∧ (runPipeline ⟨false, false, false, true⟩
        ⟨.ok none, .ok false, .ok none, .ok (some ⟨90, false⟩)⟩ "1.2.3.4"
        "Mozilla/5.0 (Windows NT 10.0; Win64; x64) Safari x").riskScore = 50
    ∧ (runPipeline ⟨false, false, false, true⟩
        ⟨.ok none, .ok false, .ok none, .ok (some ⟨90, false⟩)⟩ "1.2.3.4"
        "Mozilla/5.0 (Windows NT 10.0; Win64; x64) Safari x").isBlocked = false := by
  refine ⟨?_, by decide, by decide, by decide, by decide⟩
  unfold checkIPReputation
  dsimp only
  split
  · rfl
  · exact (Nat.add_zero _).symm

/-- C9: the user-agent collector always runs (a missing user agent is
evidence, not a skip condition): it adds 20 when the string is shorter
than 10 characters (the empty string standing for a missing header) and
15 more on a bot-signature match, and nothing else. -/
theorem userAgent_scoring (ua : String) (a : Analysis) :
    ((analyzeUserAgent ua a).riskScore = a.riskScore
        + (if ua.length < 10 then 20 else 0)
        + (if matchesBotPattern ua then 15 else 0))
    ∧ (analyzeUserAgent ua a).checks.userAgent = true
    ∧ (analyzeUserAgent "" a).riskScore = a.riskScore + 20
    ∧ (analyzeUserAgent "" a).checks.userAgent = true := by
  have hmain : ∀ s : String, (analyzeUserAgent s a).riskScore = a.riskScore
      + (if s.length < 10 then 20 else 0)
      + (if matchesBotPattern s then 15 else 0) := by
    intro s
    unfold analyzeUserAgent
    dsimp only
    by_cases h1 : s.length < 10 <;> by_cases h2 : matchesBotPattern s <;>
      simp [h1, h2]
  have hchecks : ∀ s : String, (analyzeUserAgent s a).checks.userAgent = true := by
    intro s
    unfold analyzeUserAgent
    dsimp only
    split <;> split <;> rfl
  refine ⟨hmain ua, hchecks ua, ?_, hchecks ""⟩
  rw [hmain ""]
  have h0 : matchesBotPattern "" = false := by decide
  have h1 : ("" : String).length < 10 := by decide
  rw [h0, if_pos h1, if_neg (by decide)]

/-! ## Set lemmas for the threat-list store -/

theorem mem_setAdd (s : List String) (y x : String) :
    x ∈ setAdd s y ↔ x ∈ s ∨ x = y := by
  unfold setAdd
  split
  · rename_i h
    constructor
    · exact Or.inl
    · rintro (hx | rfl)
      · exact hx
      · exact h
  · simp [List.mem_append]

theorem mem_setAddAll (xs s : List String) (x : String) :
    x ∈ setAddAll s xs ↔ x ∈ s ∨ x ∈ xs := by
  induction xs generalizing s with
  | nil => simp [setAddAll]
  | cons y ys ih =>
    show x ∈ setAddAll (setAdd s y) ys ↔ _
    rw [ih (setAdd s y), mem_setAdd, List.mem_cons]
    tauto

/-- C6 counterexample: with prior snapshot `{9.9.9.9}`, a failed primary
fetch and a successful secondary fetch delivering only `1.1.1.1`, the
resulting set still contains `9.9.9.9`, an entry the successful attempt
did not deliver — so the secondary attempt does not replace the set in
full. -/
theorem secondary_attempt_keeps_stale_entries :
    "9.9.9.9" ∈ (updateTorExitNodes 1000 (.error ()) (.ok "1.1.1.1\n")
        ⟨["9.9.9.9"], some 0⟩).torExitNodes
    ∧ "9.9.9.9" ∉ parseExitList "1.1.1.1\n" := by decide

/-- C6 (amended): only the primary-source attempt replaces the Tor
exit-node set in full; a successful secondary attempt and the hardcoded
loader merge their entries into the previous set without clearing it. -/
theorem refresh_attempt_set_semantics (st : TorState) (now : Nat)
    (sec : Except Unit String) (d x : String) (hd : d ≠ "") :
    (x ∈ (updateTorExitNodes now (.ok d) sec st).torExitNodes ↔
        x ∈ parseExitList d)
    ∧ (x ∈ (updateTorExitNodes now (.error ()) (.ok d) st).torExitNodes ↔
        x ∈ st.torExitNodes ∨ x ∈ parseExitList d)
    ∧ (x ∈ (loadHardcodedExitNodes now st).torExitNodes ↔
        x ∈ st.torExitNodes ∨ x ∈ knownExitNodes) := by
  have hb : (d != "") = true := bne_iff_ne.mpr hd
  refine ⟨?_, ?_, ?_⟩
  · unfold updateTorExitNodes
    dsimp only
    rw [if_pos hb]
    dsimp only
    rw [mem_setAddAll]
    simp
  · unfold updateTorExitNodes loadFallbackExitNodes
    dsimp only
    rw [if_pos hb]
    dsimp only
    rw [mem_setAddAll]
  · unfold loadHardcodedExitNodes
    dsimp only
    rw [mem_setAddAll]

/-- Witness for the amended C6 at concrete inputs. -/
theorem refresh_attempt_set_semantics_witness :
    ("1.1.1.1\n" ≠ "")
    ∧ (("1.1.1.1" ∈ (updateTorExitNodes 5 (.ok "1.1.1.1\n") (.error ())
          ⟨["9.9.9.8"], some 0⟩).torExitNodes ↔
        "1.1.1.1" ∈ parseExitList "1.1.1.1\n")
      ∧ ("1.1.1.1" ∈ (updateTorExitNodes 5 (.error ()) (.ok "1.1.1.1\n")
          ⟨["9.9.9.8"], some 0⟩).torExitNodes ↔
        "1.1.1.1" ∈ (⟨["9.9.9.8"], some 0⟩ : TorState).torExitNodes
          ∨ "1.1.1.1" ∈ parseExitList "1.1.1.1\n")
      ∧ ("1.1.1.1" ∈ (loadHardcodedExitNodes 5
          ⟨["9.9.9.8"], some 0⟩).torExitNodes ↔
        "1.1.1.1" ∈ (⟨["9.9.9.8"], some 0⟩ : TorState).torExitNodes
          ∨ "1.1.1.1" ∈ knownExitNodes)) :=
  ⟨by decide,
    refresh_attempt_set_semantics ⟨["9.9.9.8"], some 0⟩ 5 (.error ())
      "1.1.1.1\n" "1.1.1.1" (by decide)⟩

/-- C7 counterexample: with prior snapshot `{9.9.9.9}`, (i) a failed
primary and a successful secondary do not make the secondary's result the
new snapshot (the stale entry survives), and (ii) exhaustion of both
remote sources does not leave the snapshot in place: the hardcoded entry
`199.87.154.255` is added even though a prior snapshot exists. -/
theorem fallback_chain_counterexample :
    ((updateTorExitNodes 1000 (.error ()) (.ok "1.1.1.1\n")
        ⟨["9.9.9.9"], some 0⟩).torExitNodes ≠ parseExitList "1.1.1.1\n")
    ∧ "199.87.154.255" ∈ (updateTorExitNodes 1000 (.error ()) (.error ())
        ⟨["9.9.9.9"], some 0⟩).torExitNodes
    ∧ "199.87.154.255" ∉ (⟨["9.9.9.9"], some 0⟩ : TorState).torExitNodes := by
  decide

/-- C7 (amended): if the primary source fails, the secondary's parsed
entries are merged into the current snapshot (not substituted for it);
and when both remote sources fail, the hardcoded entries are always
merged in and `lastUpdate` stamped, whether or not a prior snapshot
exists. -/
theorem fallback_exhaustion_behaviour (st : TorState) (now : Nat) (x : String) :
    ((x ∈ (updateTorExitNodes now (.error ()) (.error ()) st).torExitNodes ↔
        x ∈ st.torExitNodes ∨ x ∈ knownExitNodes)
      ∧ (updateTorExitNodes now (.error ()) (.error ()) st).lastUpdate = some now)
    ∧ (∀ d : String, d ≠ "" →
        (x ∈ (updateTorExitNodes now (.error ()) (.ok d) st).torExitNodes ↔
          x ∈ st.torExitNodes ∨ x ∈ parseExitList d)) := by
  refine ⟨⟨?_, rfl⟩, ?_⟩
  · unfold updateTorExitNodes loadFallbackExitNodes loadHardcodedExitNodes
    dsimp only
    rw [mem_setAddAll]
  · intro d hd
    have hb : (d != "") = true := bne_iff_ne.mpr hd
    unfold updateTorExitNodes loadFallbackExitNodes
    dsimp only
    rw [if_pos hb]
    dsimp only
    rw [mem_setAddAll]

/-- Witness for the amended C7 at concrete inputs, with the non-empty-body
hypothesis discharged at `"1.1.1.1\n"`. -/
theorem fallback_exhaustion_behaviour_witness :
    ("1.1.1.1\n" ≠ "")
    ∧ ("104.244.76.13" ∈ (updateTorExitNodes 7 (.error ()) (.error ())
          ⟨["8.8.8.8"], some 0⟩).torExitNodes ↔
        "104.244.76.13" ∈ (⟨["8.8.8.8"], some 0⟩ : TorState).torExitNodes
          ∨ "104.244.76.13" ∈ knownExitNodes)
    ∧ (updateTorExitNodes 7 (.error ()) (.error ())
          ⟨["8.8.8.8"], some 0⟩).lastUpdate = some 7
    ∧ ("104.244.76.13" ∈ (updateTorExitNodes 7 (.error ()) (.ok "1.1.1.1\n")
          ⟨["8.8.8.8"], some 0⟩).torExitNodes ↔
        "104.244.76.13" ∈ (⟨["8.8.8.8"], some 0⟩ : TorState).torExitNodes
          ∨ "104.244.76.13" ∈ parseExitList "1.1.1.1\n") :=
  ⟨by decide,
    (fallback_exhaustion_behaviour ⟨["8.8.8.8"], some 0⟩ 7 "104.244.76.13").1.1,
    (fallback_exhaustion_behaviour ⟨["8.8.8.8"], some 0⟩ 7 "104.244.76.13").1.2,
    (fallback_exhaustion_behaviour ⟨["8.8.8.8"], some 0⟩ 7 "104.244.76.13").2
      "1.1.1.1\n" (by decide)⟩

/-- Witness for C2: a concrete blocked request with both the Tor flag and
the VPN flag set receives reason `TOR_EXIT_NODE`, not
`VPN_PROXY_DETECTED`. -/
theorem reason_priority_order_witness :
    ((runPipeline ⟨true, false, true, false⟩
        ⟨.ok none, .ok true, .ok (some ⟨true, false⟩), .ok none⟩
        "1.2.3.4" "x").isBlocked = true)
    ∧ ((runPipeline ⟨true, false, true, false⟩
        ⟨.ok none, .ok true, .ok (some ⟨true, false⟩), .ok none⟩
        "1.2.3.4" "x").reason = some Reason.TOR_EXIT_NODE)
    ∧ ((runPipeline ⟨true, false, true, false⟩
        ⟨.ok none, .ok true, .ok (some ⟨true, false⟩), .ok none⟩
        "1.2.3.4" "x").reason ≠ some Reason.VPN_PROXY_DETECTED) :=
  ⟨by decide,
    ((reason_priority_order ⟨true, false, true, false⟩
        ⟨.ok none, .ok true, .ok (some ⟨true, false⟩), .ok none⟩
        "1.2.3.4" "x" (by decide)).2 (by decide) (by decide)).1,
    ((reason_priority_order ⟨true, false, true, false⟩
        ⟨.ok none, .ok true, .ok (some ⟨true, false⟩), .ok none⟩
        "1.2.3.4" "x" (by decide)).2 (by decide) (by decide)).2⟩

/-! ## Middleware cache lemmas -/

/-- Looking up a key right after `cacheSet` stored it, while the entry is
unexpired, yields the stored value. -/
theorem cacheGet_cacheSet (c : List CacheEntry) (now1 now2 : Nat) (k : String)
    (v : Analysis) (ttl : Nat) (h : now2 < now1 + ttl) :
    cacheGet (cacheSet c now1 k v ttl) now2 k = some v := by
  unfold cacheGet cacheSet
  have hnone : (c.filter (fun e => e.key != k)).find?
      (fun e => e.key == k && decide (now2 < e.insertedAt + e.ttl)) = none := by
    rw [List.find?_eq_none]
    intro e he
    have hk : (e.key != k) = true := (List.mem_filter.mp he).2
    intro hp
    have hkk : (e.key == k) = true := (Bool.and_eq_true _ _ |>.mp hp).1
    rw [bne_iff_ne] at hk
    exact hk (beq_iff_eq.mp hkk)
  rw [List.find?_append, hnone]
  simp [List.find?, h]

/-- C4 counterexample: the middleware cache key is derived from the client
IP alone, so two requests with the same IP but different user agents
(`"curl"` and a normal 50-character browser string) share one cache key;
the second request receives the first's cached RiskAnalysis (risk 35,
scored from the short, bot-matching user agent) even though its own
evaluation would score 0. -/
theorem cache_key_ignores_user_agent :
    cacheKeyFor "1.2.3.4" = "analysis:1.2.3.4"
    ∧ ((guardianAnalyze ⟨false, false, false, false⟩
          ⟨.ok none, .ok false, .ok none, .ok none⟩ false 10
          ⟨"1.2.3.4", "Mozilla/5.0 (Windows NT 10.0; Win64; x64) Safari x",
            "GET", "/", "r2"⟩
          (guardianAnalyze ⟨false, false, false, false⟩
            ⟨.ok none, .ok false, .ok none, .ok none⟩ false 0
            ⟨"1.2.3.4", "curl", "GET", "/", "r1"⟩ ⟨[], ⟨[], []⟩⟩).1).2
        = (guardianAnalyze ⟨false, false, false, false⟩
            ⟨.ok none, .ok false, .ok none, .ok none⟩ false 0
            ⟨"1.2.3.4", "curl", "GET", "/", "r1"⟩ ⟨[], ⟨[], []⟩⟩).2)
    ∧ (guardianAnalyze ⟨false, false, false, false⟩
          ⟨.ok none, .ok false, .ok none, .ok none⟩ false 0
          ⟨"1.2.3.4", "curl", "GET", "/", "r1"⟩ ⟨[], ⟨[], []⟩⟩).2.riskScore = 35
    ∧ (analyzeIP ⟨false, false, false, false⟩
          ⟨.ok none, .ok false, .ok none, .ok none⟩ false "1.2.3.4"
          "Mozilla/5.0 (Windows NT 10.0; Win64; x64) Safari x").riskScore = 0 := by
  refine ⟨rfl, by decide, by decide, by decide⟩

/-- C4 (amended): the analysis cache is keyed by the client IP alone
(`analysis:` followed by the IP): after any cache-miss evaluation, every
request with the same IP — whatever its user agent, configuration or
collector outcomes — that arrives while the 300 s entry is unexpired
receives the first request's cached RiskAnalysis instead of its own
evaluation. -/
theorem cache_keyed_by_ip_only (cfg cfg2 : Config) (w w2 : World)
    (b b2 : Bool) (now1 now2 : Nat) (req1 req2 : RequestInfo)
    (st : GuardianState) (hip : req2.ip = req1.ip)
    (hmiss : cacheGet st.cache now1 (cacheKeyFor req1.ip) = none)
    (httl : now2 < now1 + 300) :
    (guardianAnalyze cfg2 w2 b2 now2 req2
        (guardianAnalyze cfg w b now1 req1 st).1).2
      = (guardianAnalyze cfg w b now1 req1 st).2 := by
  unfold guardianAnalyze
  dsimp only
  rw [hmiss]
  dsimp only
  rw [hip, cacheGet_cacheSet st.cache now1 now2 (cacheKeyFor req1.ip) _ 300 httl]

/-- Witness for the amended C4: a fresh state, a first request from
`5.6.7.8` with user agent `"curl"`, and a second request from the same IP
with a different user agent 10 seconds later. -/
theorem cache_keyed_by_ip_only_witness :
    ((⟨"5.6.7.8", "xyz", "GET", "/b", "r2"⟩ : RequestInfo).ip
        = (⟨"5.6.7.8", "curl", "GET", "/a", "r1"⟩ : RequestInfo).ip)
    ∧ cacheGet ([] : List CacheEntry) 0 (cacheKeyFor "5.6.7.8") = none
    ∧ (0 : Nat) + 10 < 0 + 300
    ∧ (guardianAnalyze ⟨false, true, false, false⟩
          ⟨.ok none, .ok false, .ok none, .ok none⟩ false (0 + 10)
          ⟨"5.6.7.8", "xyz", "GET", "/b", "r2"⟩
          (guardianAnalyze ⟨false, false, false, false⟩
            ⟨.ok none, .ok false, .ok none, .ok none⟩ false 0
            ⟨"5.6.7.8", "curl", "GET", "/a", "r1"⟩ ⟨[], ⟨[], []⟩⟩).1).2
        = (guardianAnalyze ⟨false, false, false, false⟩
            ⟨.ok none, .ok false, .ok none, .ok none⟩ false 0
            ⟨"5.6.7.8", "curl", "GET", "/a", "r1"⟩ ⟨[], ⟨[], []⟩⟩).2 :=
  ⟨rfl, rfl, by decide,
    cache_keyed_by_ip_only ⟨false, false, false, false⟩ ⟨false, true, false, false⟩
      ⟨.ok none, .ok false, .ok none, .ok none⟩
      ⟨.ok none, .ok false, .ok none, .ok none⟩ false false 0 (0 + 10)
      ⟨"5.6.7.8", "curl", "GET", "/a", "r1"⟩
      ⟨"5.6.7.8", "xyz", "GET", "/b", "r2"⟩ ⟨[], ⟨[], []⟩⟩
      rfl rfl (by decide)⟩

/-- C10: on a cache hit (an unexpired entry under the request's key) the
middleware returns the cached RiskAnalysis and the whole middleware state
is unchanged — in particular no log record is appended to the in-memory
buffer, so only cache-miss evaluations enter the log stream. -/
theorem cache_hit_performs_no_logging (cfg : Config) (w : World) (b : Bool)
    (now : Nat) (req : RequestInfo) (st : GuardianState) (a : Analysis)
    (h : cacheGet st.cache now (cacheKeyFor req.ip) = some a) :
    guardianAnalyze cfg w b now req st = (st, a)
    ∧ (guardianAnalyze cfg w b now req st).1.logState.requestLogs
        = st.logState.requestLogs := by
  have he : guardianAnalyze cfg w b now req st = (st, a) := by
    unfold guardianAnalyze
    dsimp only
    rw [h]
  exact ⟨he, by rw [he]⟩

/-- Witness for C10: a state holding one unexpired entry for
`analysis:1.2.3.4`; the request is answered from the cache and the state
is untouched. -/
theorem cache_hit_performs_no_logging_witness :
    cacheGet [⟨cacheKeyFor "1.2.3.4", errorAnalysis "1.2.3.4", 0, 300⟩] 100
        (cacheKeyFor "1.2.3.4") = some (errorAnalysis "1.2.3.4")
    ∧ guardianAnalyze ⟨false, false, false, false⟩
        ⟨.ok none, .ok false, .ok none, .ok none⟩ false 100
        ⟨"1.2.3.4", "some browser agent", "GET", "/", "r9"⟩
        ⟨[⟨cacheKeyFor "1.2.3.4", errorAnalysis "1.2.3.4", 0, 300⟩], ⟨[], []⟩⟩
      = (⟨[⟨cacheKeyFor "1.2.3.4", errorAnalysis "1.2.3.4", 0, 300⟩], ⟨[], []⟩⟩,
          errorAnalysis "1.2.3.4") :=
  ⟨by decide,
    (cache_hit_performs_no_logging ⟨false, false, false, false⟩
      ⟨.ok none, .ok false, .ok none, .ok none⟩ false 100
      ⟨"1.2.3.4", "some browser agent", "GET", "/", "r9"⟩
      ⟨[⟨cacheKeyFor "1.2.3.4", errorAnalysis "1.2.3.4", 0, 300⟩], ⟨[], []⟩⟩
      (errorAnalysis "1.2.3.4") (by decide)).1⟩

end Guardian
